import Mathlib

set_option maxRecDepth 100000

/-!
Verification development for `update_calendar.py` (near-Earth asteroid
calendar synchronizer).

The script is a linear batch pipeline: fetch a NEO feed, delete every event
on a Google calendar (paginated), then for each asteroid record apply skip
conditions, parse the close-approach date-time, floor the minutes to a
5-minute boundary, derive physical comparison quantities, render a fixed
description template, append an event to a local ICS document and attempt a
remote insert, with per-item exception handling.

This file shallowly embeds that pipeline: Python `datetime` values become an
explicit `DateTime` structure, Python floats become exact rationals (`ℚ`),
fallible external calls become Boolean outcome oracles, and the sequence of
remote API calls becomes an explicit trace list.
-/

/-- Calendar date-time with minute/second resolution, standing for a Python
`datetime` pinned to UTC (the script attaches `pytz.utc` to every parsed
value, and no other time zone ever appears). -/
structure DateTime where
  year : Nat
  month : Nat
  day : Nat
  hour : Nat
  minute : Nat
  second : Nat
deriving DecidableEq, Repr

/-- Gregorian leap-year rule, as used by Python's `datetime` when validating
and advancing dates. -/
def isLeapYear (y : Nat) : Bool :=
  (y % 4 == 0 && y % 100 != 0) || y % 400 == 0

/-- Number of days in a month of a given year (Gregorian calendar, matching
Python's `datetime` / `calendar` rules). -/
def daysInMonth (y m : Nat) : Nat :=
  if m = 2 then (if isLeapYear y then 29 else 28)
  else if m = 4 ∨ m = 6 ∨ m = 9 ∨ m = 11 then 30
  else 31

/-- Advance a date-time by one calendar day, rolling the month and year as
`datetime + timedelta` does. -/
def nextDay (t : DateTime) : DateTime :=
  if t.day < daysInMonth t.year t.month then { t with day := t.day + 1 }
  else if t.month < 12 then { t with day := 1, month := t.month + 1 }
  else { t with day := 1, month := 1, year := t.year + 1 }

/-- Advance a date-time by a number of whole days. -/
def addDays : DateTime → Nat → DateTime
  | t, 0 => t
  | t, n + 1 => addDays (nextDay t) n

/-- Addition of minutes with carry into hours and days, modelling
`datetime + timedelta(minutes=k)`. -/
def addMinutes (t : DateTime) (k : Nat) : DateTime :=
  let tm := t.minute + k
  let th := t.hour + tm / 60
  addDays { t with minute := tm % 60, hour := th % 24 } (th / 24)

/-- Start of the 5-minute block containing `dt`: the script computes
`rounded_minute = (dt.minute // 5) * 5` and then
`dt.replace(minute=rounded_minute, second=0)`. -/
def startTime (dt : DateTime) : DateTime :=
  { dt with minute := dt.minute / 5 * 5, second := 0 }

/-- Split a character list at every separator recognized by `p`, keeping
empty chunks (helper for the Python string-splitting semantics below). -/
def splitByAux (p : Char → Bool) : List Char → List (List Char)
  | [] => [[]]
  | x :: xs =>
    let r := splitByAux p xs
    if p x then [] :: r
    else
      match r with
      | [] => [[x]]
      | g :: gs => (x :: g) :: gs

/-- Python `str.split()` with no argument: split on whitespace runs and drop
empty chunks (used by `date_full.split()` on line 109 of the script). -/
def pySplitWs (s : String) : List (List Char) :=
  (splitByAux Char.isWhitespace s.data).filter (fun g => g ≠ [])

/-- Digit test for a chunk of characters. -/
def allDigits (l : List Char) : Bool :=
  !l.isEmpty && l.all Char.isDigit

/-- Numeric value of a decimal digit chunk. -/
def digitsToNat (l : List Char) : Nat :=
  l.foldl (fun n c => n * 10 + (c.toNat - 48)) 0

/-- Month number for a `%b` month abbreviation; like CPython's `strptime`,
the comparison is case-insensitive. -/
def monthOfAbbrev (l : List Char) : Option Nat :=
  (List.indexOf? (l.map Char.toLower)
    [['j','a','n'], ['f','e','b'], ['m','a','r'], ['a','p','r'],
     ['m','a','y'], ['j','u','n'], ['j','u','l'], ['a','u','g'],
     ['s','e','p'], ['o','c','t'], ['n','o','v'], ['d','e','c']]).map (· + 1)

/-- Parse `close_approach_date_full` the way lines 109-110 of the script do:
`date_part, time_part = date_full.split()` (failing if the split does not
produce exactly two chunks), then
`datetime.strptime` on the rejoined parts with format `%Y-%b-%d %H:%M`.
`%Y` requires exactly four digits, `%b` a month abbreviation, `%d`/`%H`/`%M`
one or two digits within the ranges `strptime` and the `datetime`
constructor accept. `none` stands for the `ValueError` the script catches in
its per-asteroid `except` block. The parsed value carries second `0`, as
`strptime` produces for a format without `%S`. -/
def parseDateFull (s : String) : Option DateTime :=
  match pySplitWs s with
  | [date_part, time_part] =>
    match splitByAux (fun c => c = '-') date_part,
          splitByAux (fun c => c = ':') time_part with
    | [ys, mons, ds], [hs, mins] =>
      if ys.length = 4 && allDigits ys
          && allDigits ds && ds.length ≤ 2
          && allDigits hs && hs.length ≤ 2
          && allDigits mins && mins.length ≤ 2 then
        match monthOfAbbrev mons with
        | none => none
        | some m =>
          let y := digitsToNat ys
          let d := digitsToNat ds
          let hh := digitsToNat hs
          let mm := digitsToNat mins
          if 1 ≤ y && 1 ≤ d && d ≤ daysInMonth y m && hh ≤ 23 && mm ≤ 59 then
            some ⟨y, m, d, hh, mm, 0⟩
          else none
      else none
    | _, _ => none
  | _ => none

example : parseDateFull "2024-Jan-05 13:47" = some ⟨2024, 1, 5, 13, 47, 0⟩ := by decide
example : parseDateFull "2024-Jan-05" = none := by decide
example : startTime ⟨2024, 1, 5, 13, 47, 0⟩ = ⟨2024, 1, 5, 13, 45, 0⟩ := by decide
example : addMinutes ⟨2024, 1, 5, 13, 45, 0⟩ 5 = ⟨2024, 1, 5, 13, 50, 0⟩ := by decide
example : addMinutes ⟨2024, 1, 31, 23, 55, 0⟩ 5 = ⟨2024, 2, 1, 0, 0, 0⟩ := by decide

/-- Round a rational to the nearest integer, ties to even, matching how
Python's fixed-point `format` rounds the values interpolated into the
description f-string. -/
def roundHalfEven (q : ℚ) : ℤ :=
  let fl : ℤ := ⌊q⌋
  let r : ℚ := q - fl
  if r < 1/2 then fl
  else if 1/2 < r then fl + 1
  else if fl % 2 = 0 then fl else fl + 1

/-- Left-pad a string with zeros to a given width. -/
def padZeros (s : String) (w : Nat) : String :=
  if w ≤ s.length then s else String.mk (List.replicate (w - s.length) '0') ++ s

/-- Python fixed-point rendering with the format spec `.df`: round `q` at `d`
decimal places (ties to even), then print the integer part and exactly `d`
fractional digits. -/
def formatFixed (q : ℚ) (d : Nat) : String :=
  let n := roundHalfEven (q * (10 : ℚ) ^ d)
  let sign := if n < 0 then "-" else ""
  let m := n.natAbs
  if d = 0 then sign ++ toString (m / 10 ^ d)
  else sign ++ toString (m / 10 ^ d) ++ "." ++ padZeros (toString (m % 10 ^ d)) d

/-- Insert a comma after every three digits, working over a reversed digit
list; `k` counts digits already emitted in the current group. -/
def groupRev : Nat → List Char → List Char
  | _, [] => []
  | k, c :: cs => if k = 3 then ',' :: c :: groupRev 1 cs else c :: groupRev (k + 1) cs

/-- Thousands grouping of a digit string, as the `,` flag of Python's format
spec produces ("1000000" becomes "1,000,000"). -/
def groupThousands (s : String) : String :=
  String.mk ((groupRev 0 s.data.reverse).reverse)

/-- Python fixed-point rendering with the format spec `,.df`: as above, with a thousands-separated
integer part. -/
def formatThousands (q : ℚ) (d : Nat) : String :=
  let n := roundHalfEven (q * (10 : ℚ) ^ d)
  let sign := if n < 0 then "-" else ""
  let m := n.natAbs
  if d = 0 then sign ++ groupThousands (toString (m / 10 ^ d))
  else sign ++ groupThousands (toString (m / 10 ^ d)) ++ "." ++ padZeros (toString (m % 10 ^ d)) d

/-- Line 128 of the script: `diameter_m = diameter_min * 1000`. -/
def diameter_m (diameter_min : ℚ) : ℚ := diameter_min * 1000

/-- Line 129: `velocity_kmh = velocity_kms * 3600`. -/
def velocity_kmh (velocity_kms : ℚ) : ℚ := velocity_kms * 3600

/-- Lines 130-131: `distance_from_moon = miss_distance_km / 384_400`. -/
def distance_from_moon (miss_distance_km : ℚ) : ℚ := miss_distance_km / 384400

/-- Lines 134-135: `length_in_fields = diameter_m / 91.44`. -/
def length_in_fields (dm : ℚ) : ℚ := dm / 91.44

/-- Lines 136-137: `speed_vs_jet = velocity_kmh / 900`. -/
def speed_vs_jet (vkmh : ℚ) : ℚ := vkmh / 900

example : formatFixed 0.3 2 = "0.30" := by with_unfolding_all decide
example : formatFixed (diameter_m 0.3) 0 = "300" := by with_unfolding_all decide
example : formatFixed (length_in_fields (diameter_m 0.3)) 1 = "3.3" := by with_unfolding_all decide
example : formatThousands (velocity_kmh 10) 0 = "36,000" := by with_unfolding_all decide
example : formatThousands 1000000 0 = "1,000,000" := by with_unfolding_all decide
example : formatFixed (distance_from_moon 1000000) 1 = "2.6" := by with_unfolding_all decide
example : formatFixed (speed_vs_jet (velocity_kmh 10)) 1 = "40.0" := by with_unfolding_all decide

/-- Line 133 of the script: the hazard sentence, whose exact wording depends
on the `is_potentially_hazardous_asteroid` flag. -/
def hazardMsg (is_hazardous : Bool) : String :=
  if is_hazardous then "This asteroid **IS** hazardous."
  else "This asteroid is **NOT** hazardous."

/-- Diameter line of the description (line 142-143 of the f-string):
the diameter range at 2 decimals, the derived meters at 0 decimals and
the football-field count at 1 decimal. -/
def diameterLine (dmin dmax : ℚ) : String :=
  "Diameter: " ++ formatFixed dmin 2 ++ "–" ++ formatFixed dmax 2 ++ " km (~"
    ++ formatFixed (diameter_m dmin) 0 ++ " meters, ~"
    ++ formatFixed (length_in_fields (diameter_m dmin)) 1 ++ " football fields)"

/-- Velocity line (line 144): the velocity in km/s at 2 decimals, the
derived km/h at 0 decimals thousands-separated and the jet multiple at 1
decimal. -/
def velocityLine (vkms : ℚ) : String :=
  "Velocity: " ++ formatFixed vkms 2 ++ " km/s (~"
    ++ formatThousands (velocity_kmh vkms) 0 ++ " km/h, ~"
    ++ formatFixed (speed_vs_jet (velocity_kmh vkms)) 1 ++ "x jet speed)"

/-- Distance line (line 145): the miss distance in km at 0 decimals
thousands-separated and the Moon-distance multiple at 1 decimal. -/
def distanceLine (mdkm : ℚ) : String :=
  "Distance: " ++ formatThousands mdkm 0 ++ " km (~"
    ++ formatFixed (distance_from_moon mdkm) 1 ++ "x Moon distance)"

/-- Fixed closing sentence of the template (line 148). -/
def riskDisclaimer : String := "This asteroid poses no risk during this pass.\n"

/-- The f-string of lines 140-149, without the optional `More Info` suffix.
The literal chunks are split at the line boundaries of the template; their
concatenation is character-for-character the Python f-string. -/
def buildDescriptionBase (is_hazardous : Bool) (dmin dmax vkms mdkm : ℚ)
    (abs_magnitude orbiting_body : String) : String :=
  hazardMsg is_hazardous ++ "\n\n"
    ++ diameterLine dmin dmax ++ "\n\n"
    ++ velocityLine vkms ++ "\n\n"
    ++ distanceLine mdkm ++ "\n\n"
    ++ "Absolute Magnitude (H): " ++ abs_magnitude ++ "\n"
    ++ "Orbiting Body: " ++ orbiting_body ++ "\n\n"
    ++ riskDisclaimer

/-- Lines 140-152: the full description, with the `More Info` line appended
exactly when `jpl_url` is truthy (non-empty), mirroring
the guarded concatenation on lines 151-152. -/
def buildDescription (is_hazardous : Bool) (dmin dmax vkms mdkm : ℚ)
    (abs_magnitude orbiting_body jpl_url : String) : String :=
  let base := buildDescriptionBase is_hazardous dmin dmax vkms mdkm abs_magnitude orbiting_body
  if jpl_url ≠ "" then base ++ ("\nMore Info: " ++ jpl_url) else base

/-- One entry of an asteroid's `close_approach_data` list, with the fields
the script reads. `close_approach_date_full` is `none` when the JSON field
is missing (the script reads it with `.get(..., "")`); the two numeric
fields stand for the values after the script's `float(...)` conversions. -/
structure CloseApproachEntry where
  close_approach_date_full : Option String
  relative_velocity_kms : ℚ
  miss_distance_km : ℚ
  orbiting_body : String
deriving DecidableEq, Repr

/-- One record of the NEO feed, with the fields the script reads. The
numeric diameter bounds stand for the values after `float(...)`;
`absolute_magnitude_h` carries the decimal rendering of the JSON value,
since the script only ever interpolates it into the description
(`asteroid.get("absolute_magnitude_h", "N/A")`), and `none` stands for a
missing field. `nasa_jpl_url = none` likewise stands for a missing
`nasa_jpl_url` key (read with `.get(..., "")`). -/
structure AsteroidRecord where
  name : String
  is_sentry_object : Bool
  is_potentially_hazardous_asteroid : Bool
  estimated_diameter_min_km : ℚ
  estimated_diameter_max_km : ℚ
  close_approach_data : List CloseApproachEntry
  absolute_magnitude_h : Option String
  nasa_jpl_url : Option String
deriving DecidableEq, Repr

/-- The per-asteroid event the transformer produces before it is handed to
the two sinks (title, 5-minute window, rendered description). -/
structure CalendarEvent where
  name : String
  start_time : DateTime
  end_time : DateTime
  description : String
deriving DecidableEq, Repr

/-- Outcome of the per-asteroid transformation (lines 98-152): `event` when
an event is produced, `skip` for the two silent `continue` branches (no
approach data / not a sentry object, and no time component in the date
string), `error` when an exception is raised and caught by the per-asteroid
`except` block (here: a `ValueError` from `strptime`/unpacking). -/
inductive TransformResult where
  | event : CalendarEvent → TransformResult
  | skip : TransformResult
  | error : TransformResult
deriving DecidableEq, Repr

/-- The `date_full` string the script examines: first close-approach entry's
`close_approach_date_full`, defaulting to `""` (empty string means the
asteroid has no approach entries; the script never reaches the default in
that case because it skips first). -/
def firstDateFull (a : AsteroidRecord) : String :=
  match a.close_approach_data with
  | [] => ""
  | entry :: _ => entry.close_approach_date_full.getD ""

/-- Loop body of lines 98-152: skip conditions, date parsing, 5-minute
window, derived quantities and description. Mirrors the control flow of the
script: `continue` when `close_approach_data` is empty or
`is_sentry_object` is false; `continue` when the (defaulted) date string
has no `" "`; a caught exception when `strptime` fails; otherwise the
transformed event. -/
def transformAsteroid (a : AsteroidRecord) : TransformResult :=
  match a.close_approach_data with
  | [] => .skip
  | entry :: _ =>
    if a.is_sentry_object = false then .skip
    else
      let date_full := entry.close_approach_date_full.getD ""
      if date_full.data.contains ' ' = false then .skip
      else
        match parseDateFull date_full with
        | none => .error
        | some dt =>
          .event { name := a.name
                 , start_time := startTime dt
                 , end_time := addMinutes (startTime dt) 5
                 , description := buildDescription a.is_potentially_hazardous_asteroid
                     a.estimated_diameter_min_km a.estimated_diameter_max_km
                     entry.relative_velocity_kms entry.miss_distance_km
                     (a.absolute_magnitude_h.getD "N/A") entry.orbiting_body
                     (a.nasa_jpl_url.getD "") }

/-- ISO 8601 rendering of a UTC `datetime`, as `start_time.isoformat()`
produces for the Google event body (seconds included, `+00:00` offset from
`pytz.utc`). -/
def pad2 (n : Nat) : String :=
  if n < 10 then "0" ++ toString n else toString n

/-- Four-digit zero-padded year, as `datetime.isoformat` renders it. -/
def pad4 (n : Nat) : String :=
  if n < 10 then "000" ++ toString n
  else if n < 100 then "00" ++ toString n
  else if n < 1000 then "0" ++ toString n
  else toString n

/-- The `isoformat()` string of a UTC date-time. -/
def isoformat (t : DateTime) : String :=
  pad4 t.year ++ "-" ++ pad2 t.month ++ "-" ++ pad2 t.day ++ "T"
    ++ pad2 t.hour ++ ":" ++ pad2 t.minute ++ ":" ++ pad2 t.second ++ "+00:00"

/-- One component of the local ICS calendar: the four `ics_event.add` calls
of lines 155-159 (summary, dtstart, dtend, description). -/
structure IcsEvent where
  summary : String
  dtstart : DateTime
  dtend : DateTime
  description : String
deriving DecidableEq, Repr

/-- The Google Calendar insert body of lines 163-174: summary, description,
and start/end as `isoformat()` strings each with an explicit `"UTC"` time
zone. -/
structure GEvent where
  summary : String
  description : String
  startDateTime : String
  startTimeZone : String
  endDateTime : String
  endTimeZone : String
deriving DecidableEq, Repr

/-- Local-sink view of a transformed event (lines 155-160). -/
def toIcsEvent (ev : CalendarEvent) : IcsEvent :=
  { summary := ev.name
  , dtstart := ev.start_time
  , dtend := ev.end_time
  , description := ev.description }

/-- Remote-sink view of the same transformed event (lines 163-174). -/
def toGcalEvent (ev : CalendarEvent) : GEvent :=
  { summary := ev.name
  , description := ev.description
  , startDateTime := isoformat ev.start_time
  , startTimeZone := "UTC"
  , endDateTime := isoformat ev.end_time
  , endTimeZone := "UTC" }

/-- One observable call against the Google Calendar service: a page listing,
a delete attempt (event id and whether the service reported success — a
failed attempt is caught and only logged), or an insert attempt (body and
outcome, likewise caught on failure). -/
inductive ApiCall where
  | page : ApiCall
  | delete : String → Bool → ApiCall
  | insert : GEvent → Bool → ApiCall
deriving DecidableEq, Repr

/-- Lines 64-77, `delete_all_events`: the remote listing is modelled as the
finite sequence of pages the service returns (each page a list of event
ids; the last page carries no `nextPageToken`, ending the `while True`
loop). For every page the script issues one list call and then one delete
attempt per item; a delete failure is caught inside the per-event
`try/except` and does not stop either loop. `dOk` is the outcome oracle for
delete attempts. -/
def delete_all_events (dOk : String → Bool) : List (List String) → List ApiCall
  | [] => []
  | page :: rest =>
    ApiCall.page :: (page.map fun id => ApiCall.delete id (dOk id))
      ++ delete_all_events dOk rest

/-- Lines 154-183 for one asteroid: if the transformation produced an event,
the local append (line 160) happens first and unconditionally, then the
remote insert is attempted (lines 176-178) with outcome `iOk ev`; an insert
failure is caught by the per-asteroid `except` after the append has already
happened. A skipped or failed transformation touches neither sink. Returns
the local components added and the remote calls issued. -/
def processOne (iOk : CalendarEvent → Bool) (a : AsteroidRecord) :
    List IcsEvent × List ApiCall :=
  match transformAsteroid a with
  | .event ev => ([toIcsEvent ev], [ApiCall.insert (toGcalEvent ev) (iOk ev)])
  | .skip => ([], [])
  | .error => ([], [])

/-- The loop of lines 96-183 over the (date-sorted, flattened) asteroid
records: each iteration appends its local components and its remote calls;
no per-item outcome influences any other iteration. -/
def processAll (iOk : CalendarEvent → Bool) :
    List AsteroidRecord → List IcsEvent × List ApiCall
  | [] => ([], [])
  | a :: rest =>
    let r := processOne iOk a
    let rs := processAll iOk rest
    (r.1 ++ rs.1, r.2 ++ rs.2)

/-- The events of the qualifying asteroids, in order. -/
def qualifyingEvents (asteroids : List AsteroidRecord) : List CalendarEvent :=
  asteroids.filterMap fun a =>
    match transformAsteroid a with
    | .event ev => some ev
    | .skip => none
    | .error => none

/-- Insert bodies attempted in a call trace, in order. -/
def insertBodies (calls : List ApiCall) : List GEvent :=
  calls.filterMap fun c =>
    match c with
    | .insert g _ => some g
    | _ => none

/-- Event ids of the delete attempts in a call trace, in order. -/
def deletedIds (calls : List ApiCall) : List String :=
  calls.filterMap fun c =>
    match c with
    | .delete id _ => some id
    | _ => none

/-- The whole run's remote-call trace (lines 91-183): the reset
(`delete_all_events(calendar_service)`, line 93) runs to completion, then
the processing loop issues its inserts. -/
def runCalls (dOk : String → Bool) (pages : List (List String))
    (iOk : CalendarEvent → Bool) (asteroids : List AsteroidRecord) : List ApiCall :=
  delete_all_events dOk pages ++ (processAll iOk asteroids).2

/-- Sample close-approach entry used by the concrete witnesses below. -/
def sampleEntry : CloseApproachEntry :=
  { close_approach_date_full := some "2024-Jan-05 13:47"
  , relative_velocity_kms := 10
  , miss_distance_km := 1000000
  , orbiting_body := "Earth" }

/-- Sample qualifying asteroid record. -/
def sampleAst : AsteroidRecord :=
  { name := "(2024 AB)"
  , is_sentry_object := true
  , is_potentially_hazardous_asteroid := false
  , estimated_diameter_min_km := 0.3
  , estimated_diameter_max_km := 0.7
  , close_approach_data := [sampleEntry]
  , absolute_magnitude_h := some "20.5"
  , nasa_jpl_url := none }

/-- The event `sampleAst` transforms to. -/
def sampleEv : CalendarEvent :=
  { name := "(2024 AB)"
  , start_time := ⟨2024, 1, 5, 13, 45, 0⟩
  , end_time := ⟨2024, 1, 5, 13, 50, 0⟩
  , description := buildDescription false 0.3 0.7 10 1000000 "20.5" "Earth" "" }

theorem transform_sampleAst : transformAsteroid sampleAst = .event sampleEv := by
  have h2 : parseDateFull "2024-Jan-05 13:47" = some ⟨2024, 1, 5, 13, 47, 0⟩ := by decide
  have h1 : ("2024-Jan-05 13:47".data.contains ' ') = true := by decide
  simp only [transformAsteroid, sampleAst, sampleEntry, Option.getD_some, h1, h2, sampleEv]
  norm_num [startTime, addMinutes, addDays]

/-- Helper: each of the three failing conditions makes the transformer take
one of its two `continue` branches. -/
theorem transformAsteroid_skip_of (a : AsteroidRecord)
    (h : a.close_approach_data = [] ∨ a.is_sentry_object = false ∨
      (firstDateFull a).data.contains ' ' = false) :
    transformAsteroid a = .skip := by
  cases hcd : a.close_approach_data with
  | nil => simp [transformAsteroid, hcd]
  | cons entry rest =>
    simp only [transformAsteroid, hcd]
    rcases h with h | h | h
    · rw [hcd] at h; exact absurd h (by simp)
    · rw [h]; simp
    · simp only [firstDateFull, hcd] at h
      rw [h]
      simp

/-- C1: an event reaches either sink only for records with at least one
close-approach entry, the sentry flag set, and a space (date plus time) in
the first entry's defaulted `close_approach_date_full`; a record failing any
of these conditions produces nothing in either sink. -/
theorem claim_C1_event_only_if_qualifying (a : AsteroidRecord) :
    (∀ ev, transformAsteroid a = .event ev →
      a.close_approach_data ≠ [] ∧ a.is_sentry_object = true ∧
      (firstDateFull a).data.contains ' ' = true)
    ∧ ((a.close_approach_data = [] ∨ a.is_sentry_object = false ∨
        (firstDateFull a).data.contains ' ' = false) →
      ∀ iOk, processOne iOk a = ([], [])) := by
  constructor
  · intro ev h
    cases hcd : a.close_approach_data with
    | nil => rw [transformAsteroid, hcd] at h; exact absurd h (by simp)
    | cons entry rest =>
      simp only [transformAsteroid, hcd] at h
      cases hs : a.is_sentry_object with
      | false => rw [hs] at h; simp at h
      | true =>
        rw [hs] at h
        simp only [Bool.true_eq_false, if_false, reduceIte] at h
        cases hc : (entry.close_approach_date_full.getD "").data.contains ' ' with
        | false => rw [hc] at h; simp at h
        | true =>
          refine ⟨by simp, rfl, ?_⟩
          simp only [firstDateFull, hcd]
          exact hc
  · intro h iOk
    rw [processOne, transformAsteroid_skip_of a h]

/-- Sample record that fails the sentry-object condition. -/
def sampleAstNoSentry : AsteroidRecord := { sampleAst with is_sentry_object := false }

/-- Witness for C1: a concrete non-sentry record produces nothing in either
sink. -/
theorem claim_C1_witness : processOne (fun _ => true) sampleAstNoSentry = ([], []) :=
  (claim_C1_event_only_if_qualifying sampleAstNoSentry).2
    (Or.inr (Or.inl (by decide))) (fun _ => true)

/-- C2: every produced event has start time equal to the parsed approach
time with minutes floored to a multiple of 5 and seconds zeroed (all other
fields unchanged), and end time equal to start plus 5 minutes; concretely,
`2024-Jan-05 13:47` yields the window `2024-01-05T13:45:00Z` to
`2024-01-05T13:50:00Z`. -/
theorem claim_C2_five_minute_window :
    (∀ (a : AsteroidRecord) (ev : CalendarEvent), transformAsteroid a = .event ev →
      ∃ dt, parseDateFull (firstDateFull a) = some dt ∧
        ev.start_time = startTime dt ∧
        ev.end_time = addMinutes ev.start_time 5 ∧
        (startTime dt).year = dt.year ∧ (startTime dt).month = dt.month ∧
        (startTime dt).day = dt.day ∧ (startTime dt).hour = dt.hour ∧
        (startTime dt).second = 0 ∧ (startTime dt).minute % 5 = 0 ∧
        (startTime dt).minute ≤ dt.minute ∧ dt.minute < (startTime dt).minute + 5)
    ∧ parseDateFull "2024-Jan-05 13:47" = some ⟨2024, 1, 5, 13, 47, 0⟩
    ∧ startTime ⟨2024, 1, 5, 13, 47, 0⟩ = ⟨2024, 1, 5, 13, 45, 0⟩
    ∧ addMinutes ⟨2024, 1, 5, 13, 45, 0⟩ 5 = ⟨2024, 1, 5, 13, 50, 0⟩
    ∧ isoformat ⟨2024, 1, 5, 13, 45, 0⟩ = "2024-01-05T13:45:00+00:00"
    ∧ isoformat ⟨2024, 1, 5, 13, 50, 0⟩ = "2024-01-05T13:50:00+00:00" := by
  refine ⟨?_, by decide, by decide, by decide, by decide, by decide⟩
  intro a ev h
  cases hcd : a.close_approach_data with
  | nil => rw [transformAsteroid, hcd] at h; exact absurd h (by simp)
  | cons entry rest =>
    simp only [transformAsteroid, hcd] at h
    cases hs : a.is_sentry_object with
    | false => rw [hs] at h; simp at h
    | true =>
      rw [hs] at h
      simp only [Bool.true_eq_false, if_false, reduceIte] at h
      cases hc : (entry.close_approach_date_full.getD "").data.contains ' ' with
      | false => rw [hc] at h; simp at h
      | true =>
        rw [hc] at h
        simp only [Bool.true_eq_false, if_false, reduceIte] at h
        cases hp : parseDateFull (entry.close_approach_date_full.getD "") with
        | none => rw [hp] at h; simp at h
        | some dt =>
          rw [hp] at h
          simp only [TransformResult.event.injEq] at h
          refine ⟨dt, ?_, ?_, ?_, rfl, rfl, rfl, rfl, rfl, ?_, ?_, ?_⟩
          · simp only [firstDateFull, hcd]; exact hp
          · rw [← h]
          · rw [← h]
          · show dt.minute / 5 * 5 % 5 = 0; omega
          · show dt.minute / 5 * 5 ≤ dt.minute; omega
          · show dt.minute < dt.minute / 5 * 5 + 5; omega

/-- Witness for C2: the general window property instantiated at the sample
qualifying asteroid. -/
theorem claim_C2_witness :
    ∃ dt, parseDateFull (firstDateFull sampleAst) = some dt ∧
      sampleEv.start_time = startTime dt ∧
      sampleEv.end_time = addMinutes sampleEv.start_time 5 ∧
      (startTime dt).year = dt.year ∧ (startTime dt).month = dt.month ∧
      (startTime dt).day = dt.day ∧ (startTime dt).hour = dt.hour ∧
      (startTime dt).second = 0 ∧ (startTime dt).minute % 5 = 0 ∧
      (startTime dt).minute ≤ dt.minute ∧ dt.minute < (startTime dt).minute + 5 :=
  claim_C2_five_minute_window.1 sampleAst sampleEv transform_sampleAst

/-- Helper: the reset trace consists of page listings and delete attempts
only — `delete_all_events` (lines 64-77) issues no insert. -/
theorem delete_all_events_no_insert (dOk : String → Bool) (pages : List (List String)) :
    ∀ c ∈ delete_all_events dOk pages, ∀ g b, c ≠ ApiCall.insert g b := by
  induction pages with
  | nil => simp [delete_all_events]
  | cons p rest ih =>
    intro c hc g b
    rw [show delete_all_events dOk (p :: rest)
        = ApiCall.page :: ((p.map fun id => ApiCall.delete id (dOk id))
            ++ delete_all_events dOk rest) from rfl] at hc
    simp only [List.mem_cons, List.mem_append, List.mem_map] at hc
    rcases hc with h | ⟨id, _, rfl⟩ | h
    · subst h; simp
    · simp
    · exact ih c h g b

/-- Helper: the processing loop (lines 96-183) only ever issues insert
calls against the remote calendar. -/
theorem processAll_snd_insert (iOk : CalendarEvent → Bool) (asteroids : List AsteroidRecord) :
    ∀ c ∈ (processAll iOk asteroids).2, ∃ g b, c = ApiCall.insert g b := by
  induction asteroids with
  | nil => simp [processAll]
  | cons a rest ih =>
    intro c hc
    simp only [processAll, List.mem_append] at hc
    rcases hc with h | h
    · rcases ht : transformAsteroid a with ev | _ | _ <;>
        simp only [processOne, ht, List.mem_singleton, List.not_mem_nil] at h
      · exact ⟨toGcalEvent ev, iOk ev, h⟩
    · exact ih c h

/-- C3: in the run's remote-call trace, every delete issued by the calendar
reset occurs strictly before every insert issued by the processing loop —
the reset drains all pages before the first insert happens. -/
theorem claim_C3_reset_precedes_inserts (dOk : String → Bool) (pages : List (List String))
    (iOk : CalendarEvent → Bool) (asteroids : List AsteroidRecord) :
    ∀ i j id b g c,
      (runCalls dOk pages iOk asteroids).get? i = some (ApiCall.delete id b) →
      (runCalls dOk pages iOk asteroids).get? j = some (ApiCall.insert g c) →
      i < j := by
  intro i j id b g c hi hj
  have hrun : runCalls dOk pages iOk asteroids
      = delete_all_events dOk pages ++ (processAll iOk asteroids).2 := rfl
  have hiD : i < (delete_all_events dOk pages).length := by
    by_contra hge
    push_neg at hge
    rw [hrun, List.get?_append_right hge] at hi
    have hmem := List.get?_mem hi
    obtain ⟨g', b', hgb⟩ := processAll_snd_insert iOk asteroids _ hmem
    exact absurd hgb (by simp)
  have hjD : (delete_all_events dOk pages).length ≤ j := by
    by_contra hlt
    push_neg at hlt
    rw [hrun, List.get?_append hlt] at hj
    have hmem := List.get?_mem hj
    exact delete_all_events_no_insert dOk pages _ hmem g c rfl
  omega

/-- Witness for C3: a one-page, one-event reset followed by one qualifying
asteroid — the delete at trace position 1 precedes the insert at position 2. -/
theorem claim_C3_witness :
    (runCalls (fun _ => true) [["e1"]] (fun _ => true) [sampleAst]).get? 1
        = some (ApiCall.delete "e1" true) ∧
    (runCalls (fun _ => true) [["e1"]] (fun _ => true) [sampleAst]).get? 2
        = some (ApiCall.insert (toGcalEvent sampleEv) true) ∧
    1 < 2 := by
  have h1 : (runCalls (fun _ => true) [["e1"]] (fun _ => true) [sampleAst]).get? 1
      = some (ApiCall.delete "e1" true) := by
    simp [runCalls, delete_all_events, processAll, processOne, transform_sampleAst]
  have h2 : (runCalls (fun _ => true) [["e1"]] (fun _ => true) [sampleAst]).get? 2
      = some (ApiCall.insert (toGcalEvent sampleEv) true) := by
    simp [runCalls, delete_all_events, processAll, processOne, transform_sampleAst]
  exact ⟨h1, h2,
    claim_C3_reset_precedes_inserts (fun _ => true) [["e1"]] (fun _ => true) [sampleAst]
      1 2 "e1" true (toGcalEvent sampleEv) true h1 h2⟩

/-- Helper: the local document accumulated by the loop is exactly the
ICS view of the qualifying events, independent of any insert outcome. -/
theorem processAll_fst (iOk : CalendarEvent → Bool) (asteroids : List AsteroidRecord) :
    (processAll iOk asteroids).1 = (qualifyingEvents asteroids).map toIcsEvent := by
  induction asteroids with
  | nil => simp [processAll, qualifyingEvents]
  | cons a rest ih =>
    rcases ht : transformAsteroid a with ev | _ | _ <;>
      simp [processAll, processOne, qualifyingEvents, List.filterMap_cons, ht, ih]

/-- Helper: the insert bodies attempted by the loop are exactly the Google
view of the qualifying events, independent of any insert outcome. -/
theorem insertBodies_processAll (iOk : CalendarEvent → Bool) (asteroids : List AsteroidRecord) :
    insertBodies (processAll iOk asteroids).2 = (qualifyingEvents asteroids).map toGcalEvent := by
  induction asteroids with
  | nil => simp [processAll, qualifyingEvents, insertBodies]
  | cons a rest ih =>
    rcases ht : transformAsteroid a with ev | _ | _ <;>
      simp [processAll, processOne, qualifyingEvents, insertBodies,
        List.filterMap_cons, List.filterMap_append, ht] <;>
      simpa [insertBodies, qualifyingEvents] using ih

/-- C4: the two sinks are independent. The local component added for an
asteroid does not depend on the remote outcome oracle, the attempted insert
body does not either, and whenever the transformer yields an event, one
local append and one remote insert attempt both happen (the append, line
160, precedes the fallible `execute()` of line 178, so a remote failure
cannot retract it; the append itself is an infallible in-memory operation). -/
theorem claim_C4_sink_independence (a : AsteroidRecord) (iOk iOk' : CalendarEvent → Bool) :
    (processOne iOk a).1 = (processOne iOk' a).1 ∧
    insertBodies (processOne iOk a).2 = insertBodies (processOne iOk' a).2 ∧
    (∀ ev, transformAsteroid a = .event ev →
      processOne iOk a = ([toIcsEvent ev], [ApiCall.insert (toGcalEvent ev) (iOk ev)])) := by
  refine ⟨?_, ?_, ?_⟩
  · rcases ht : transformAsteroid a with ev | _ | _ <;> simp [processOne, ht]
  · rcases ht : transformAsteroid a with ev | _ | _ <;> simp [processOne, ht, insertBodies]
  · intro ev h; simp [processOne, h]

/-- Witness for C4: with a remote oracle that always fails, the sample
asteroid still gets its local append, and the insert is still attempted
(with recorded failure). -/
theorem claim_C4_witness :
    processOne (fun _ => false) sampleAst
      = ([toIcsEvent sampleEv], [ApiCall.insert (toGcalEvent sampleEv) false]) :=
  (claim_C4_sink_independence sampleAst (fun _ => false) (fun _ => true)).2.2
    sampleEv transform_sampleAst

/-- C5: round-trip between the sinks. The local document and the attempted
remote insert bodies are the two views of the same qualifying-event list,
and for every event the two views agree on title, start, end and
description (the remote times being the `isoformat()` strings of the local
ones, both marked UTC). -/
theorem claim_C5_round_trip (iOk : CalendarEvent → Bool) (asteroids : List AsteroidRecord) :
    (processAll iOk asteroids).1 = (qualifyingEvents asteroids).map toIcsEvent ∧
    insertBodies (processAll iOk asteroids).2 = (qualifyingEvents asteroids).map toGcalEvent ∧
    ∀ ev : CalendarEvent,
      (toIcsEvent ev).summary = (toGcalEvent ev).summary ∧
      (toGcalEvent ev).startDateTime = isoformat (toIcsEvent ev).dtstart ∧
      (toGcalEvent ev).startTimeZone = "UTC" ∧
      (toGcalEvent ev).endDateTime = isoformat (toIcsEvent ev).dtend ∧
      (toGcalEvent ev).endTimeZone = "UTC" ∧
      (toIcsEvent ev).description = (toGcalEvent ev).description :=
  ⟨processAll_fst iOk asteroids, insertBodies_processAll iOk asteroids,
    fun _ => ⟨rfl, rfl, rfl, rfl, rfl, rfl⟩⟩

/-- Proposition: `pat` is a prefix of `s`. -/
def startsWithStr (s pat : String) : Prop := ∃ r, s = pat ++ r

/-- Proposition: `pat` is a suffix of `s`. -/
def endsWithStr (s pat : String) : Prop := ∃ p, s = p ++ pat

/-- Proposition: `pat` occurs contiguously inside `s`. -/
def containsSubstr (s pat : String) : Prop := ∃ p q, s = p ++ (pat ++ q)

/-- C6: the derived comparison quantities are the stated rescalings, and at
the concrete inputs diameter_min = 0.3 km, velocity = 10 km/s,
miss_distance = 1,000,000 km they evaluate to 300 m, 36,000 km/h, ≈2.60
Moon distances, ≈3.28 football fields and exactly 40.0 jet speeds (the
approximations pinned both by rational bounds and by their two-decimal
renderings). -/
theorem claim_C6_derived_quantities :
    (∀ q : ℚ, diameter_m q = q * 1000) ∧
    (∀ q : ℚ, velocity_kmh q = q * 3600) ∧
    (∀ q : ℚ, distance_from_moon q = q / 384400) ∧
    (∀ q : ℚ, length_in_fields q = q / 91.44) ∧
    (∀ q : ℚ, speed_vs_jet q = q / 900) ∧
    diameter_m 0.3 = 300 ∧
    velocity_kmh 10 = 36000 ∧
    (2.595 ≤ distance_from_moon 1000000 ∧ distance_from_moon 1000000 < 2.605) ∧
    formatFixed (distance_from_moon 1000000) 2 = "2.60" ∧
    (3.275 ≤ length_in_fields (diameter_m 0.3) ∧ length_in_fields (diameter_m 0.3) < 3.285) ∧
    formatFixed (length_in_fields (diameter_m 0.3)) 2 = "3.28" ∧
    speed_vs_jet (velocity_kmh 10) = 40 := by
  refine ⟨fun _ => rfl, fun _ => rfl, fun _ => rfl, fun _ => rfl, fun _ => rfl,
    ?_, ?_, ⟨?_, ?_⟩, ?_, ⟨?_, ?_⟩, ?_, ?_⟩
  · norm_num [diameter_m]
  · norm_num [velocity_kmh]
  · norm_num [distance_from_moon]
  · norm_num [distance_from_moon]
  · with_unfolding_all decide
  · norm_num [length_in_fields, diameter_m]
  · norm_num [length_in_fields, diameter_m]
  · with_unfolding_all decide
  · norm_num [speed_vs_jet, velocity_kmh]

/-- Helper: a produced event's description is the template instantiated
with the record's own fields, with the first approach entry authoritative
and the documented defaults (`"N/A"` for a missing magnitude, `""` for a
missing URL). -/
theorem transform_description_eq (a : AsteroidRecord) (entry : CloseApproachEntry)
    (rest : List CloseApproachEntry) (ev : CalendarEvent)
    (hcd : a.close_approach_data = entry :: rest)
    (hev : transformAsteroid a = .event ev) :
    ev.description = buildDescription a.is_potentially_hazardous_asteroid
      a.estimated_diameter_min_km a.estimated_diameter_max_km
      entry.relative_velocity_kms entry.miss_distance_km
      (a.absolute_magnitude_h.getD "N/A") entry.orbiting_body
      (a.nasa_jpl_url.getD "") := by
  simp only [transformAsteroid, hcd] at hev
  cases hs : a.is_sentry_object with
  | false => rw [hs] at hev; simp at hev
  | true =>
    rw [hs] at hev
    simp only [Bool.true_eq_false, if_false, reduceIte] at hev
    cases hc : (entry.close_approach_date_full.getD "").data.contains ' ' with
    | false => rw [hc] at hev; simp at hev
    | true =>
      rw [hc] at hev
      simp only [Bool.true_eq_false, if_false, reduceIte] at hev
      cases hp : parseDateFull (entry.close_approach_date_full.getD "") with
      | none => rw [hp] at hev; simp at hev
      | some dt =>
        rw [hp] at hev
        simp only [TransformResult.event.injEq] at hev
        rw [← hev]

/-- C7: the rendered description follows the fixed template. It starts with
the flag-dependent hazard sentence, contains the diameter, velocity and
distance lines with the claimed precisions and separators, contains the
magnitude (with its `"N/A"` default applied at extraction) and orbiting-body
lines, and its base ends with the fixed risk disclaimer; and every produced
event's description is exactly this template instantiated with the record's
fields. -/
theorem claim_C7_description_template :
    (∀ (hz : Bool) (dmin dmax vkms mdkm : ℚ) (mag ob : String),
      startsWithStr (buildDescriptionBase hz dmin dmax vkms mdkm mag ob) (hazardMsg hz) ∧
      containsSubstr (buildDescriptionBase hz dmin dmax vkms mdkm mag ob)
        (diameterLine dmin dmax) ∧
      containsSubstr (buildDescriptionBase hz dmin dmax vkms mdkm mag ob)
        (velocityLine vkms) ∧
      containsSubstr (buildDescriptionBase hz dmin dmax vkms mdkm mag ob)
        (distanceLine mdkm) ∧
      containsSubstr (buildDescriptionBase hz dmin dmax vkms mdkm mag ob)
        ("Absolute Magnitude (H): " ++ mag ++ "\n" ++ "Orbiting Body: " ++ ob) ∧
      endsWithStr (buildDescriptionBase hz dmin dmax vkms mdkm mag ob) riskDisclaimer) ∧
    hazardMsg true = "This asteroid **IS** hazardous." ∧
    hazardMsg false = "This asteroid is **NOT** hazardous." ∧
    (∀ dmin dmax : ℚ, diameterLine dmin dmax
      = "Diameter: " ++ formatFixed dmin 2 ++ "–" ++ formatFixed dmax 2 ++ " km (~"
        ++ formatFixed (diameter_m dmin) 0 ++ " meters, ~"
        ++ formatFixed (length_in_fields (diameter_m dmin)) 1 ++ " football fields)") ∧
    (∀ vkms : ℚ, velocityLine vkms
      = "Velocity: " ++ formatFixed vkms 2 ++ " km/s (~"
        ++ formatThousands (velocity_kmh vkms) 0 ++ " km/h, ~"
        ++ formatFixed (speed_vs_jet (velocity_kmh vkms)) 1 ++ "x jet speed)") ∧
    (∀ mdkm : ℚ, distanceLine mdkm
      = "Distance: " ++ formatThousands mdkm 0 ++ " km (~"
        ++ formatFixed (distance_from_moon mdkm) 1 ++ "x Moon distance)") ∧
    riskDisclaimer = "This asteroid poses no risk during this pass.\n" ∧
    (∀ (a : AsteroidRecord) (entry : CloseApproachEntry)
        (rest : List CloseApproachEntry) (ev : CalendarEvent),
      a.close_approach_data = entry :: rest → transformAsteroid a = .event ev →
      ev.description = buildDescription a.is_potentially_hazardous_asteroid
        a.estimated_diameter_min_km a.estimated_diameter_max_km
        entry.relative_velocity_kms entry.miss_distance_km
        (a.absolute_magnitude_h.getD "N/A") entry.orbiting_body
        (a.nasa_jpl_url.getD "")) := by
  refine ⟨?_, rfl, rfl, fun _ _ => rfl, fun _ => rfl, fun _ => rfl, rfl,
    transform_description_eq⟩
  intro hz dmin dmax vkms mdkm mag ob
  refine ⟨⟨"\n\n" ++ diameterLine dmin dmax ++ "\n\n" ++ velocityLine vkms ++ "\n\n"
      ++ distanceLine mdkm ++ "\n\n" ++ "Absolute Magnitude (H): " ++ mag ++ "\n"
      ++ "Orbiting Body: " ++ ob ++ "\n\n" ++ riskDisclaimer, ?_⟩,
    ⟨hazardMsg hz ++ "\n\n",
      "\n\n" ++ velocityLine vkms ++ "\n\n" ++ distanceLine mdkm ++ "\n\n"
        ++ "Absolute Magnitude (H): " ++ mag ++ "\n" ++ "Orbiting Body: " ++ ob
        ++ "\n\n" ++ riskDisclaimer, ?_⟩,
    ⟨hazardMsg hz ++ "\n\n" ++ diameterLine dmin dmax ++ "\n\n",
      "\n\n" ++ distanceLine mdkm ++ "\n\n" ++ "Absolute Magnitude (H): " ++ mag
        ++ "\n" ++ "Orbiting Body: " ++ ob ++ "\n\n" ++ riskDisclaimer, ?_⟩,
    ⟨hazardMsg hz ++ "\n\n" ++ diameterLine dmin dmax ++ "\n\n" ++ velocityLine vkms
        ++ "\n\n",
      "\n\n" ++ "Absolute Magnitude (H): " ++ mag ++ "\n" ++ "Orbiting Body: " ++ ob
        ++ "\n\n" ++ riskDisclaimer, ?_⟩,
    ⟨hazardMsg hz ++ "\n\n" ++ diameterLine dmin dmax ++ "\n\n" ++ velocityLine vkms
        ++ "\n\n" ++ distanceLine mdkm ++ "\n\n",
      "\n\n" ++ riskDisclaimer, ?_⟩,
    ⟨hazardMsg hz ++ "\n\n" ++ diameterLine dmin dmax ++ "\n\n" ++ velocityLine vkms
        ++ "\n\n" ++ distanceLine mdkm ++ "\n\n" ++ "Absolute Magnitude (H): " ++ mag
        ++ "\n" ++ "Orbiting Body: " ++ ob ++ "\n\n", ?_⟩⟩ <;>
  simp only [buildDescriptionBase, String.append_assoc]

/-- Witness for C7: the template-instantiation clause applied to the sample
qualifying asteroid. -/
theorem claim_C7_witness :
    sampleEv.description = buildDescription sampleAst.is_potentially_hazardous_asteroid
      sampleAst.estimated_diameter_min_km sampleAst.estimated_diameter_max_km
      sampleEntry.relative_velocity_kms sampleEntry.miss_distance_km
      (sampleAst.absolute_magnitude_h.getD "N/A") sampleEntry.orbiting_body
      (sampleAst.nasa_jpl_url.getD "") :=
  claim_C7_description_template.2.2.2.2.2.2.2 sampleAst sampleEntry [] sampleEv
    rfl transform_sampleAst

/-- C8: a record carrying a (non-empty) reference URL gets a description
that ends with the `More Info` line holding that URL; a record without the
field gets exactly the base template, which ends with the risk disclaimer —
no `More Info` line is appended. -/
theorem claim_C8_more_info (a : AsteroidRecord) (entry : CloseApproachEntry)
    (rest : List CloseApproachEntry) (ev : CalendarEvent)
    (hcd : a.close_approach_data = entry :: rest)
    (hev : transformAsteroid a = .event ev) :
    (∀ u, a.nasa_jpl_url = some u → u ≠ "" →
      ev.description = buildDescriptionBase a.is_potentially_hazardous_asteroid
        a.estimated_diameter_min_km a.estimated_diameter_max_km
        entry.relative_velocity_kms entry.miss_distance_km
        (a.absolute_magnitude_h.getD "N/A") entry.orbiting_body
        ++ ("\nMore Info: " ++ u) ∧
      endsWithStr ev.description ("\nMore Info: " ++ u)) ∧
    (a.nasa_jpl_url = none →
      ev.description = buildDescriptionBase a.is_potentially_hazardous_asteroid
        a.estimated_diameter_min_km a.estimated_diameter_max_km
        entry.relative_velocity_kms entry.miss_distance_km
        (a.absolute_magnitude_h.getD "N/A") entry.orbiting_body ∧
      endsWithStr ev.description riskDisclaimer) := by
  have hdesc := transform_description_eq a entry rest ev hcd hev
  constructor
  · intro u hu hne
    rw [hu] at hdesc
    simp only [Option.getD_some] at hdesc
    rw [buildDescription] at hdesc
    rw [if_pos hne] at hdesc
    exact ⟨hdesc, ⟨_, hdesc⟩⟩
  · intro hu
    rw [hu] at hdesc
    simp only [Option.getD_none] at hdesc
    rw [buildDescription] at hdesc
    rw [if_neg (by simp)] at hdesc
    refine ⟨hdesc, ?_⟩
    rw [hdesc]
    exact ⟨hazardMsg a.is_potentially_hazardous_asteroid ++ "\n\n"
        ++ diameterLine a.estimated_diameter_min_km a.estimated_diameter_max_km ++ "\n\n"
        ++ velocityLine entry.relative_velocity_kms ++ "\n\n"
        ++ distanceLine entry.miss_distance_km ++ "\n\n"
        ++ "Absolute Magnitude (H): " ++ (a.absolute_magnitude_h.getD "N/A") ++ "\n"
        ++ "Orbiting Body: " ++ entry.orbiting_body ++ "\n\n",
      by simp only [buildDescriptionBase, String.append_assoc]⟩

/-- Sample qualifying asteroid that carries a reference URL. -/
def sampleAstUrl : AsteroidRecord :=
  { sampleAst with nasa_jpl_url := some "https://example.org/2024ab" }

/-- The event `sampleAstUrl` transforms to. -/
def sampleEvUrl : CalendarEvent :=
  { name := "(2024 AB)"
  , start_time := ⟨2024, 1, 5, 13, 45, 0⟩
  , end_time := ⟨2024, 1, 5, 13, 50, 0⟩
  , description := buildDescription false 0.3 0.7 10 1000000 "20.5" "Earth"
      "https://example.org/2024ab" }

/-- Helper: concrete transformation of the URL-carrying sample. -/
theorem transform_sampleAstUrl : transformAsteroid sampleAstUrl = .event sampleEvUrl := by
  have h2 : parseDateFull "2024-Jan-05 13:47" = some ⟨2024, 1, 5, 13, 47, 0⟩ := by decide
  have h1 : ("2024-Jan-05 13:47".data.contains ' ') = true := by decide
  simp only [transformAsteroid, sampleAstUrl, sampleAst, sampleEntry, Option.getD_some,
    h1, h2, sampleEvUrl]
  norm_num [startTime, addMinutes, addDays]

/-- Witness for C8: the URL-carrying sample's description ends with its
`More Info` line. -/
theorem claim_C8_witness :
    sampleEvUrl.description = buildDescriptionBase false 0.3 0.7 10 1000000 "20.5" "Earth"
      ++ ("\nMore Info: " ++ "https://example.org/2024ab") ∧
    endsWithStr sampleEvUrl.description ("\nMore Info: " ++ "https://example.org/2024ab") :=
  (claim_C8_more_info sampleAstUrl sampleEntry [] sampleEvUrl rfl transform_sampleAstUrl).1
    "https://example.org/2024ab" rfl (by decide)

/-- C9: no recoverable per-item failure terminates the run. The processing
loop distributes over list decomposition (so an item's outcome — skip,
caught error, or failed insert — never affects the items after it), the
local document and the attempted insert bodies are invariant under the
remote outcome oracle, and the reset loop attempts a delete for every event
of every page regardless of the delete outcome oracle. -/
theorem claim_C9_per_item_isolation :
    (∀ (iOk : CalendarEvent → Bool) (xs ys : List AsteroidRecord),
      (processAll iOk (xs ++ ys)).1 = (processAll iOk xs).1 ++ (processAll iOk ys).1 ∧
      (processAll iOk (xs ++ ys)).2 = (processAll iOk xs).2 ++ (processAll iOk ys).2) ∧
    (∀ (iOk iOk' : CalendarEvent → Bool) (asteroids : List AsteroidRecord),
      (processAll iOk asteroids).1 = (processAll iOk' asteroids).1 ∧
      insertBodies (processAll iOk asteroids).2
        = insertBodies (processAll iOk' asteroids).2) ∧
    (∀ (dOk dOk' : String → Bool) (pages : List (List String)),
      deletedIds (delete_all_events dOk pages)
        = deletedIds (delete_all_events dOk' pages)) ∧
    (∀ (dOk : String → Bool) (pages : List (List String)),
      deletedIds (delete_all_events dOk pages) = pages.flatten) := by
  have hpage : ∀ l, deletedIds (ApiCall.page :: l) = deletedIds l := by
    intro l; simp [deletedIds, List.filterMap_cons]
  have happ : ∀ l1 l2, deletedIds (l1 ++ l2) = deletedIds l1 ++ deletedIds l2 := by
    intro l1 l2; simp [deletedIds, List.filterMap_append]
  have hmap : ∀ (dOk : String → Bool) (p : List String),
      deletedIds (p.map fun id => ApiCall.delete id (dOk id)) = p := by
    intro dOk p
    induction p with
    | nil => simp [deletedIds]
    | cons x xs ih =>
      simp only [List.map_cons, deletedIds, List.filterMap_cons] at ih ⊢
      rw [ih]
  have hdel : ∀ (dOk : String → Bool) (pages : List (List String)),
      deletedIds (delete_all_events dOk pages) = pages.flatten := by
    intro dOk pages
    induction pages with
    | nil => simp [delete_all_events, deletedIds]
    | cons p rest ih =>
      rw [show delete_all_events dOk (p :: rest)
          = ApiCall.page :: ((p.map fun id => ApiCall.delete id (dOk id))
              ++ delete_all_events dOk rest) from rfl]
      rw [hpage, happ, hmap, ih, List.flatten_cons]
  refine ⟨?_, ?_, ?_, hdel⟩
  · intro iOk xs ys
    induction xs with
    | nil => simp [processAll]
    | cons a xs ih => simp [processAll, ih, List.append_assoc]
  · intro iOk iOk' asteroids
    rw [processAll_fst, processAll_fst, insertBodies_processAll, insertBodies_processAll]
    exact ⟨rfl, rfl⟩
  · intro dOk dOk' pages
    rw [hdel, hdel]

/-- C10: a record that passes the sentry and close-approach checks but whose
first entry lacks `close_approach_date_full` entirely gets the empty-string
default, which contains no space — so the record is skipped through the
silent `continue` branch (`TransformResult.skip`, not the caught-exception
`TransformResult.error`), and neither sink receives anything. -/
theorem claim_C10_missing_date_silently_skipped (a : AsteroidRecord)
    (entry : CloseApproachEntry) (rest : List CloseApproachEntry)
    (hcd : a.close_approach_data = entry :: rest)
    (hs : a.is_sentry_object = true)
    (hdf : entry.close_approach_date_full = none) :
    transformAsteroid a = .skip ∧ ∀ iOk, processOne iOk a = ([], []) := by
  have hskip : transformAsteroid a = .skip := by
    simp [transformAsteroid, hcd, hs, hdf]
  exact ⟨hskip, fun iOk => by rw [processOne, hskip]⟩

/-- Sample record whose only approach entry lacks the full date-time field. -/
def sampleAstNoDate : AsteroidRecord :=
  { sampleAst with
    close_approach_data := [{ sampleEntry with close_approach_date_full := none }] }

/-- Witness for C10: the concrete no-date record is silently skipped. -/
theorem claim_C10_witness :
    transformAsteroid sampleAstNoDate = .skip ∧
    processOne (fun _ => true) sampleAstNoDate = ([], []) :=
  ⟨(claim_C10_missing_date_silently_skipped sampleAstNoDate
      { sampleEntry with close_approach_date_full := none } [] rfl rfl rfl).1,
    (claim_C10_missing_date_silently_skipped sampleAstNoDate
      { sampleEntry with close_approach_date_full := none } [] rfl rfl rfl).2
      (fun _ => true)⟩
